import Mathlib

/-!
Verification development for the Lorbrand SSGS-Node server (`src/index.js`,
which bundles `ssgscp/ssgscp.js` — the SSGSCP codec — and the server core).

Conventions of the shallow embedding:
* A Node `Buffer` is a `List Nat`; every entry of a real buffer is a byte
  (`< 256`), which theorems carry as explicit hypotheses where it matters.
* AES-256-CTR is a stream cipher: ciphertext byte `i` is plaintext byte `i`
  XORed with a keystream byte that depends only on the key, the 16-byte IV
  and the position `i`.  The AES block function itself lives in `node:crypto`,
  outside this repository, so the keystream is a parameter `ks` of type
  `KeyStream`; encryption and decryption use the same keystream, exactly as
  `aes-256-ctr` does in `createCipheriv`/`createDecipheriv`.
* Wall-clock times (`Date.now()`) are `Int` parameters; the random 8 IV bytes
  drawn by `crypto.randomBytes(8)` are an explicit `iv8` parameter.
* Socket writes and application callbacks (`onmessage`, `onconnection`,
  `onreconnect` via `setTimeout`) are recorded as an `Effect` list instead of
  being performed.
-/

/-- The AES-256-CTR keystream, abstracted: key → 16-byte IV → byte position →
keystream byte.  The real keystream produces bytes (`< 256`). -/
def KeyStream : Type := List Nat → List Nat → Nat → Nat

/-- XOR a byte list with the keystream `ksf`, starting at position `i`.
Models `cipher.update`/`decipher.update` for `aes-256-ctr` (position 0). -/
def ctrCryptAux (ksf : Nat → Nat) (i : Nat) : List Nat → List Nat
  | [] => []
  | b :: rest => (b ^^^ ksf i) :: ctrCryptAux ksf (i + 1) rest

/-- CTR-mode encryption/decryption of `data` under `key` and 16-byte `iv16`. -/
def ctrCrypt (ks : KeyStream) (key iv16 data : List Nat) : List Nat :=
  ctrCryptAux (ks key iv16) 0 data

/-- `SSGSCP.PACKET_IDENTIFIER`: the 6 magic bytes "SSGSCP". -/
def PACKET_IDENTIFIER : List Nat := [83, 83, 71, 83, 67, 80]

/-- `getU16BE`: `buffer[0] << 8 | buffer[1]` (out-of-range reads of a Buffer
yield 0 for arithmetic here only when in range; parse always reads in range). -/
def getU16BE (buffer : List Nat) : Nat :=
  (buffer.getD 0 0) <<< 8 ||| buffer.getD 1 0

/-- `setU16BE`: `Buffer.from([value >> 8, value & 0xff])`.  `Buffer.from`
truncates each entry to a byte, and `value & 0xff = value % 256` on `Nat`. -/
def setU16BE (value : Nat) : List Nat :=
  [(value >>> 8) % 256, value % 256]

/-- `bufferContainsValues(buffer, offset, array)` from `ssgscp.js`: compares
with JS `!=`, under which two out-of-range (`undefined`) reads are equal —
hence the `Option`-level comparison. -/
def bufferContainsValues (buffer : List Nat) (offset : Nat) (array : List Nat) : Bool :=
  (List.range array.length).all fun i => buffer.get? (i + offset) == array.get? i

/-- The fields handed to `SSGSCP.packSSGSCP`.  Every call site in the server
supplies a `gatewayUID`; `payload` is genuinely optional (`sendCONNFAIL`,
`sendCONNACPT`, `sendRCPTOK` omit it). -/
structure OutPacket where
  packetType : Nat
  gatewayUID : List Nat
  packetID : Nat
  payload : Option (List Nat)
deriving DecidableEq

/-- Fields of a successfully authenticated parse (`authSuccess: true`). -/
structure ParsedFields where
  packetType : Nat
  encryptionAuthenticationCode : List Nat
  gatewayUID : List Nat
  packetID : Nat
  payload : List Nat
deriving DecidableEq

/-- Result of `SSGSCP.parseSSGSCP` when it does not return `null`:
either the bare `authSuccess: false` object, or the full field set. -/
inductive ParseResult where
  | authFail : ParseResult
  | ok : ParsedFields → ParseResult
deriving DecidableEq

/-- `SSGSCP.isSSGSCP`: at least 18 header + 8 encrypted bytes, and the
magic prefix. -/
def isSSGSCP (datagram : List Nat) : Bool :=
  if datagram.length < 18 + 8 then false
  else bufferContainsValues datagram 0 PACKET_IDENTIFIER

/-- The `encryptedPortionPlaintext` buffer built by `packSSGSCP`: it is
`alloc(u + (4 - u % 4))` for `u = 8 + payload.length`, written left to right
at offsets 0 (type), 1 (auth code), 5 (packet ID), 7 (payload length byte —
`Buffer.set` truncates `payload.length` to a byte), 8 (payload); the unwritten
suffix stays zero.  `packetType` is guarded by the caller to `[0, 255]`, so
the byte truncation on that write is the identity and is omitted. -/
def encryptedPortionPlaintext (packet : OutPacket) : List Nat :=
  let payload := packet.payload.getD []
  let u := 8 + payload.length
  [packet.packetType] ++ [0, 1, 2, 3] ++ setU16BE packet.packetID ++
    [payload.length % 256] ++ payload ++ List.replicate (4 - u % 4) 0

/-- `SSGSCP.packSSGSCP(packet, key)`.  The packed datagram is magic ++ iv8 ++
gatewayUID ++ ciphertext: the source writes the 16-byte IV at offset 6 and
then overwrites offsets 14..18 with the gateway UID and offsets 18.. with the
ciphertext, so only the 8 random IV bytes remain in the output. -/
def packSSGSCP (ks : KeyStream) (packet : OutPacket) (key : List Nat) (iv8 : List Nat) :
    Option (List Nat) :=
  if 255 < packet.packetType then none
  else if packet.gatewayUID.length ≠ 4 then none
  else if 65535 < packet.packetID then none
  else
    let iv16 := iv8 ++ List.replicate 8 0
    let encryptedPortion := ctrCrypt ks key iv16 (encryptedPortionPlaintext packet)
    some (PACKET_IDENTIFIER ++ iv8 ++ packet.gatewayUID ++ encryptedPortion)

/-- The decrypted portion `parseSSGSCP` works on: bytes 18.. of the datagram,
decrypted under the 8 IV bytes found at offsets 6..14 (right-padded to 16). -/
def decryptedPortion (ks : KeyStream) (datagram key : List Nat) : List Nat :=
  ctrCrypt ks key ((datagram.drop 6).take 8 ++ List.replicate 8 0) (datagram.drop 18)

/-- `SSGSCP.parseSSGSCP(datagram, key)`. -/
def parseSSGSCP (ks : KeyStream) (datagram key : List Nat) : Option ParseResult :=
  if ¬ isSSGSCP datagram then none
  else
    let dp := decryptedPortion ks datagram key
    let packetType := dp.getD 0 0
    let encryptionAuthenticationCode := (dp.drop 1).take 4
    let packetID := getU16BE ((dp.drop 5).take 2)
    let payloadLength := dp.getD 7 0
    let payload := (dp.drop 8).take payloadLength
    if ¬ bufferContainsValues encryptionAuthenticationCode 0 [0, 1, 2, 3] then
      some ParseResult.authFail
    else
      some (ParseResult.ok
        { packetType := packetType
          encryptionAuthenticationCode := encryptionAuthenticationCode
          gatewayUID := (datagram.drop 14).take 4
          packetID := packetID
          payload := payload })

/-- `SSGSCP.parsePacketGatewayUID`: magic check, then bytes 14..18. -/
def parsePacketGatewayUID (datagram : List Nat) : Option (List Nat) :=
  if isSSGSCP datagram then some ((datagram.drop 14).take 4) else none

-- Basic facts about the embedding's primitives.

theorem ctrCryptAux_length (ksf : Nat → Nat) (i : Nat) (l : List Nat) :
    (ctrCryptAux ksf i l).length = l.length := by
  induction l generalizing i with
  | nil => rfl
  | cons b rest ih => simp [ctrCryptAux, ih]

theorem ctrCryptAux_involutive (ksf : Nat → Nat) (i : Nat) (l : List Nat) :
    ctrCryptAux ksf i (ctrCryptAux ksf i l) = l := by
  induction l generalizing i with
  | nil => rfl
  | cons b rest ih =>
    simp only [ctrCryptAux, ih]
    rw [Nat.xor_assoc, Nat.xor_self, Nat.xor_zero]

theorem ctrCrypt_length (ks : KeyStream) (key iv16 l : List Nat) :
    (ctrCrypt ks key iv16 l).length = l.length :=
  ctrCryptAux_length _ 0 l

theorem ctrCrypt_involutive (ks : KeyStream) (key iv16 l : List Nat) :
    ctrCrypt ks key iv16 (ctrCrypt ks key iv16 l) = l :=
  ctrCryptAux_involutive _ 0 l

theorem getU16BE_setU16BE (v : Nat) (h : v < 65536) :
    getU16BE (setU16BE v) = v := by
  have hdiv : v >>> 8 = v / 256 := by
    rw [Nat.shiftRight_eq_div_pow]
  have hlt : v / 256 < 256 := by omega
  have h8 : v >>> 8 % 256 = v / 256 := by
    rw [hdiv, Nat.mod_eq_of_lt hlt]
  simp only [getU16BE, setU16BE, List.getD_cons_zero, List.getD_cons_succ, h8]
  apply Nat.eq_of_testBit_eq
  intro i
  rw [Nat.testBit_lor, Nat.testBit_shiftLeft]
  have h256 : (256 : Nat) = 2 ^ 8 := by norm_num
  rcases Nat.lt_or_ge i 8 with hi | hi
  · have : ¬ (i ≥ 8) := by omega
    simp only [this, decide_eq_false_iff_not.mpr this, Bool.false_and, Bool.false_or]
    rw [h256, Nat.testBit_mod_two_pow]
    simp [hi]
  · have hmod : Nat.testBit (v % 256) i = false := by
      rw [h256, Nat.testBit_mod_two_pow]
      simp only [Bool.and_eq_false_iff]
      left
      simpa using by omega
    have hge : (decide (i ≥ 8)) = true := by simp [hi]
    rw [hmod, hge, Bool.true_and, Bool.or_false, ← hdiv, Nat.testBit_shiftRight]
    congr 1
    omega

theorem setU16BE_length (v : Nat) : (setU16BE v).length = 2 := rfl

theorem getU16BE_pair (v : Nat) (h : v < 65536) :
    getU16BE [(v >>> 8) % 256, v % 256] = v :=
  getU16BE_setU16BE v h

theorem encryptedPortionPlaintext_length (packet : OutPacket) :
    (encryptedPortionPlaintext packet).length =
      (8 + (packet.payload.getD []).length) +
        (4 - (8 + (packet.payload.getD []).length) % 4) := by
  simp [encryptedPortionPlaintext, setU16BE]
  omega

theorem packSSGSCP_eq (ks : KeyStream) (packet : OutPacket) (key iv8 : List Nat)
    (htype : packet.packetType ≤ 255) (huid : packet.gatewayUID.length = 4)
    (hpid : packet.packetID ≤ 65535) :
    packSSGSCP ks packet key iv8 =
      some (PACKET_IDENTIFIER ++ iv8 ++ packet.gatewayUID ++
        ctrCrypt ks key (iv8 ++ List.replicate 8 0) (encryptedPortionPlaintext packet)) := by
  rw [packSSGSCP, if_neg (by omega), if_neg (by simp [huid]), if_neg (by omega)]

theorem magic_prefix (rest : List Nat) :
    bufferContainsValues (PACKET_IDENTIFIER ++ rest) 0 PACKET_IDENTIFIER = true := rfl

theorem isSSGSCP_packed (iv8 uid enc : List Nat)
    (hiv : iv8.length = 8) (huid : uid.length = 4) (henc : 8 ≤ enc.length) :
    isSSGSCP (PACKET_IDENTIFIER ++ iv8 ++ uid ++ enc) = true := by
  rw [isSSGSCP, if_neg]
  · rw [List.append_assoc, List.append_assoc]
    exact magic_prefix _
  · simp only [List.length_append, hiv, huid, not_lt, PACKET_IDENTIFIER,
      List.length_cons, List.length_nil]
    omega

theorem drop6_packed (iv8 uid enc : List Nat) :
    (PACKET_IDENTIFIER ++ iv8 ++ uid ++ enc).drop 6 = iv8 ++ uid ++ enc := by
  rw [List.append_assoc, List.append_assoc, List.drop_left' (by rfl),
    ← List.append_assoc]

theorem drop14_packed (iv8 uid enc : List Nat) (hiv : iv8.length = 8) :
    (PACKET_IDENTIFIER ++ iv8 ++ uid ++ enc).drop 14 = uid ++ enc := by
  have h : (14 : Nat) = 6 + 8 := by norm_num
  rw [h, ← List.drop_drop, drop6_packed, List.append_assoc, List.drop_left' hiv]

theorem drop18_packed (iv8 uid enc : List Nat) (hiv : iv8.length = 8)
    (huid : uid.length = 4) :
    (PACKET_IDENTIFIER ++ iv8 ++ uid ++ enc).drop 18 = enc := by
  have h : (18 : Nat) = 14 + 4 := by norm_num
  rw [h, ← List.drop_drop, drop14_packed _ _ _ hiv, List.drop_left' huid]

theorem decryptedPortion_packed (ks : KeyStream) (packet : OutPacket)
    (key iv8 : List Nat) (hiv : iv8.length = 8) (huid : packet.gatewayUID.length = 4) :
    decryptedPortion ks
      (PACKET_IDENTIFIER ++ iv8 ++ packet.gatewayUID ++
        ctrCrypt ks key (iv8 ++ List.replicate 8 0) (encryptedPortionPlaintext packet))
      key = encryptedPortionPlaintext packet := by
  rw [decryptedPortion, drop6_packed, drop18_packed _ _ _ hiv huid,
    List.append_assoc, List.take_left' hiv, ctrCrypt_involutive]

/-- Round trip at the codec level: parsing a freshly packed datagram under the
same key succeeds and returns the original fields. -/
theorem parse_pack (ks : KeyStream) (packet : OutPacket) (key iv8 : List Nat)
    (htype : packet.packetType ≤ 255) (huid : packet.gatewayUID.length = 4)
    (hpid : packet.packetID ≤ 65535)
    (hpay : (packet.payload.getD []).length ≤ 255) (hiv : iv8.length = 8) :
    parseSSGSCP ks
      (PACKET_IDENTIFIER ++ iv8 ++ packet.gatewayUID ++
        ctrCrypt ks key (iv8 ++ List.replicate 8 0) (encryptedPortionPlaintext packet))
      key =
      some (ParseResult.ok
        { packetType := packet.packetType
          encryptionAuthenticationCode := [0, 1, 2, 3]
          gatewayUID := packet.gatewayUID
          packetID := packet.packetID
          payload := packet.payload.getD [] }) := by
  have hlen : 8 ≤ (ctrCrypt ks key (iv8 ++ List.replicate 8 0)
      (encryptedPortionPlaintext packet)).length := by
    rw [ctrCrypt_length, encryptedPortionPlaintext_length]
    omega
  have hdp := decryptedPortion_packed ks packet key iv8 hiv huid
  have hpt : encryptedPortionPlaintext packet =
      packet.packetType :: 0 :: 1 :: 2 :: 3 :: ((packet.packetID >>> 8) % 256) ::
        (packet.packetID % 256) :: ((packet.payload.getD []).length % 256) ::
        (packet.payload.getD [] ++
          List.replicate (4 - (8 + (packet.payload.getD []).length) % 4) 0) := by
    simp [encryptedPortionPlaintext, setU16BE]
  have hcheck : bufferContainsValues [0, 1, 2, 3] 0 [0, 1, 2, 3] = true := rfl
  simp only [parseSSGSCP]
  rw [if_neg (by
    rw [isSSGSCP_packed _ _ _ hiv huid hlen]
    simp)]
  rw [hdp, drop14_packed _ _ _ hiv, List.take_left' huid, hpt]
  simp only [List.drop_succ_cons, List.drop_zero, List.take_succ_cons,
    List.take_zero, List.getD_cons_zero, List.getD_cons_succ, hcheck,
    not_true_eq_false, if_false, Option.some.injEq, ParseResult.ok.injEq,
    ParsedFields.mk.injEq]
  refine ⟨trivial, trivial, trivial, ?_, ?_⟩
  · exact getU16BE_pair packet.packetID (by omega)
  · rw [Nat.mod_eq_of_lt (by omega), List.take_left]

-- ------------------------------------------------------------------
-- Server core (`index.js` / `index.ts`)
-- ------------------------------------------------------------------

/-- `RECV_MSG_FIFO_MAX_LEN`. -/
def RECV_MSG_FIFO_MAX_LEN : Nat := 100

/-- `SENT_MSG_LIST_MAX_LEN`. -/
def SENT_MSG_LIST_MAX_LEN : Nat := 100

/-- Remote UDP endpoint info (`rinfo`). -/
structure RInfo where
  address : String
  port : Nat
deriving DecidableEq

/-- A `SentMessage` entry of `client.sentMessages`. -/
structure SentMessage where
  packetID : Nat
  timestamp : Int
  packet : List Nat
deriving DecidableEq

/-- The `Client` state machine.  The callbacks (`onmessage`, `onreconnect`,
`send`) are not stored: their invocations are recorded as `Effect`s. -/
structure Client where
  gatewayUID : List Nat
  sourcePort : Nat
  remoteAddress : String
  lastSeen : Int
  sendPacketID : Nat
  retransmissionTimeout : Int
  sentMessages : List SentMessage
  receivedMessageIDsFIFO : List Nat
  key : List Nat
deriving DecidableEq

/-- An entry of `authorizedGateways`. -/
structure AuthorizedGateway where
  gatewayUID : List Nat
  key : List Nat
deriving DecidableEq

/-- The SSGS server state relevant to the claims. -/
structure Server where
  authorizedGateways : List AuthorizedGateway
  connectedClients : List Client
deriving DecidableEq

/-- Observable actions of the server: UDP sends (`socket.send(bytes, port,
address)`), application callbacks, and the `setTimeout` scheduling of
`onreconnect`. -/
inductive Effect where
  | sent : List Nat → Nat → String → Effect
  | onmessage : List Nat → List Nat → Effect
  | onconnection : List Nat → Effect
  | scheduleReconnect : List Nat → Int → Effect
deriving DecidableEq

/-- `SSGS.gatewayUIDsMatch`: JS `!=` on possibly out-of-range (`undefined`)
reads compares as equality of `Option` values; the null checks of the source
do not arise because every UID handled here is a list. -/
def gatewayUIDsMatch (gatewayUID1 gatewayUID2 : List Nat) : Bool :=
  if gatewayUID1.length ≠ 4 ∧ gatewayUID2.length ≠ 4 then false
  else (List.range 4).all fun i => gatewayUID1.get? i == gatewayUID2.get? i

/-- `SSGS.prototype.isAuthorizedGateway` (the source's flag-accumulating loop
is exactly an existence check). -/
def isAuthorizedGateway (st : Server) (gatewayUID : List Nat) : Bool :=
  st.authorizedGateways.any fun g => gatewayUIDsMatch g.gatewayUID gatewayUID

/-- `SSGS.prototype.getGatewayKey`: key of the first matching entry. -/
def getGatewayKey (st : Server) (gatewayUID : List Nat) : Option (List Nat) :=
  (st.authorizedGateways.find? fun g => gatewayUIDsMatch g.gatewayUID gatewayUID).map
    AuthorizedGateway.key

/-- Push onto `sentMessages` and `shift` when past `SENT_MSG_LIST_MAX_LEN`,
as done at the end of `sendMSG`. -/
def sentPush (msgs : List SentMessage) (m : SentMessage) : List SentMessage :=
  let l := msgs ++ [m]
  if SENT_MSG_LIST_MAX_LEN < l.length then l.tail else l

/-- Push onto `receivedMessageIDsFIFO` and `shift` when past
`RECV_MSG_FIFO_MAX_LEN`, as done in the MSGSTATUS branch of `process`. -/
def fifoPush (fifo : List Nat) (packetID : Nat) : List Nat :=
  let f := fifo ++ [packetID]
  if RECV_MSG_FIFO_MAX_LEN < f.length then f.tail else f

/-- `socket.send(packedPacket, port, address)` as an effect.  `packSSGSCP`
never fails on the control packets the server emits (their fields are always
in range); the `none` case is unreachable for byte-valued datagrams. -/
def sendEffect (packed : Option (List Nat)) (rinfo : RInfo) : List Effect :=
  match packed with
  | some bytes => [Effect.sent bytes rinfo.port rinfo.address]
  | none => []

/-- The packet handed to `packSSGSCP` by `SSGS.prototype.sendCONNFAIL`:
type CONNFAIL (3), packetID 0, no payload, and a 32-byte zero key. -/
def packCONNFAIL (ks : KeyStream) (gatewayUID iv8 : List Nat) : Option (List Nat) :=
  packSSGSCP ks
    { packetType := 3, gatewayUID := gatewayUID, packetID := 0, payload := none }
    (List.replicate 32 0) iv8

/-- The packet handed to `packSSGSCP` by `SSGS.prototype.sendCONNACPT`:
type CONNACPT (2), packetID 0, no payload, the gateway's key. -/
def packCONNACPT (ks : KeyStream) (key gatewayUID iv8 : List Nat) : Option (List Nat) :=
  packSSGSCP ks
    { packetType := 2, gatewayUID := gatewayUID, packetID := 0, payload := none }
    key iv8

/-- The packet handed to `packSSGSCP` by `SSGS.prototype.sendRCPTOK`:
type RCPTOK (10), the acknowledged packetID, no payload. -/
def packRCPTOK (ks : KeyStream) (packetID : Nat) (key gatewayUID iv8 : List Nat) :
    Option (List Nat) :=
  packSSGSCP ks
    { packetType := 10, gatewayUID := gatewayUID, packetID := packetID, payload := none }
    key iv8

/-- `SSGS.prototype.sendMSG(client, packetType, payload)`: pack with the
client's current `sendPacketID`; on pack failure log and return; otherwise
send, append to `sentMessages`, advance `sendPacketID` mod 65536, and evict
the head if the queue is too long. -/
def sendMSG (ks : KeyStream) (now : Int) (iv8 : List Nat) (client : Client)
    (packetType : Nat) (payload : Option (List Nat)) : Client × List Effect :=
  match packSSGSCP ks
      { packetType := packetType, gatewayUID := client.gatewayUID,
        packetID := client.sendPacketID, payload := payload }
      client.key iv8 with
  | none => (client, [])
  | some packedPacket =>
    ({ client with
        sentMessages := sentPush client.sentMessages
          { packetID := client.sendPacketID, timestamp := now, packet := packedPacket }
        sendPacketID := (client.sendPacketID + 1) % 65536 },
      [Effect.sent packedPacket client.sourcePort client.remoteAddress])

/-- Replace the first list entry satisfying `p` (the entry `find?` returns)
by its image under `f`: in the source the found client object is mutated in
place. -/
def updateFirst (p : Client → Bool) (f : Client → Client) : List Client → List Client
  | [] => []
  | c :: rest => if p c then f c :: rest else c :: updateFirst p f rest

/-- The retransmission loop body of `SSGS.prototype.tickClients` over
`client.sentMessages`, threading `retransmittedCount`. -/
def tickMessages (now : Int) (rto : Int) (port : Nat) (address : String)
    (count : Nat) : List SentMessage → List SentMessage × List Effect
  | [] => ([], [])
  | m :: rest =>
    if count < 10 ∧ rto < now - m.timestamp then
      let r := tickMessages now rto port address (count + 1) rest
      ({ m with timestamp := now } :: r.1, Effect.sent m.packet port address :: r.2)
    else
      let r := tickMessages now rto port address count rest
      (m :: r.1, r.2)

/-- One client's share of `SSGS.prototype.tickClients`. -/
def tickClient (now : Int) (client : Client) : Client × List Effect :=
  let r := tickMessages now client.retransmissionTimeout client.sourcePort
    client.remoteAddress 0 client.sentMessages
  ({ client with sentMessages := r.1 }, r.2)

/-- `SSGS.prototype.tickClients`: every connected client is ticked. -/
def tickClients (now : Int) (st : Server) : Server × List Effect :=
  let results := st.connectedClients.map (tickClient now)
  ({ st with connectedClients := results.map Prod.fst },
    (results.map Prod.snd).flatten)

/-- `SSGS.prototype.process(datagram, rinfo)`.  `now` models the `Date.now()`
calls during this dispatch and `iv8` the random IV of the (at most one)
packet the dispatch packs. -/
def process (ks : KeyStream) (now : Int) (iv8 : List Nat) (st : Server)
    (datagram : List Nat) (rinfo : RInfo) : Server × List Effect :=
  match parsePacketGatewayUID datagram with
  | none => (st, [])
  | some gatewayUID =>
    if ¬ isAuthorizedGateway st gatewayUID then (st, [])
    else
      match getGatewayKey st gatewayUID with
      | none => (st, [])
      | some key =>
        match parseSSGSCP ks datagram key with
        | none => (st, sendEffect (packCONNFAIL ks gatewayUID iv8) rinfo)
        | some ParseResult.authFail =>
          (st, sendEffect (packCONNFAIL ks gatewayUID iv8) rinfo)
        | some (ParseResult.ok parsedPacket) =>
          match st.connectedClients.find?
              (fun c => gatewayUIDsMatch c.gatewayUID parsedPacket.gatewayUID) with
          | none =>
            if parsedPacket.packetType = 1 then
              let newClient : Client :=
                { gatewayUID := parsedPacket.gatewayUID
                  sourcePort := rinfo.port
                  remoteAddress := rinfo.address
                  lastSeen := now
                  sendPacketID := 0
                  retransmissionTimeout := 2000
                  sentMessages := []
                  receivedMessageIDsFIFO := []
                  key := key }
              ({ st with connectedClients := st.connectedClients ++ [newClient] },
                sendEffect (packCONNACPT ks key parsedPacket.gatewayUID iv8) rinfo ++
                  [Effect.onconnection parsedPacket.gatewayUID])
            else
              (st, sendEffect (packCONNFAIL ks parsedPacket.gatewayUID iv8) rinfo)
          | some client =>
            let c0 := { client with lastSeen := now }
            let put := fun (c1 : Client) =>
              let clients1 := updateFirst
                (fun c => gatewayUIDsMatch c.gatewayUID parsedPacket.gatewayUID)
                (fun _ => c1) st.connectedClients
              { st with connectedClients := clients1 }
            if parsedPacket.packetType = 1 then
              -- peer restart: reset sequencing state, update endpoint,
              -- CONNACPT, schedule onreconnect after retransmissionTimeout
              let c1 := { c0 with
                sendPacketID := 0
                retransmissionTimeout := 2000
                sentMessages := []
                receivedMessageIDsFIFO := []
                remoteAddress := rinfo.address
                sourcePort := rinfo.port }
              (put c1,
                sendEffect (packCONNACPT ks key parsedPacket.gatewayUID iv8) rinfo ++
                  [Effect.scheduleReconnect parsedPacket.gatewayUID c1.retransmissionTimeout])
            else if parsedPacket.packetType = 10 then
              -- RCPTOK: drop the first matching entry from sentMessages
              let c1 := { c0 with
                sentMessages := c0.sentMessages.eraseP
                  (fun m => m.packetID == parsedPacket.packetID) }
              (put c1, [])
            else if parsedPacket.packetType = 21 then
              -- MSGSTATUS
              if c0.receivedMessageIDsFIFO.contains parsedPacket.packetID then
                (put c0,
                  sendEffect (packRCPTOK ks parsedPacket.packetID key
                    parsedPacket.gatewayUID iv8) rinfo)
              else
                let c1 := { c0 with
                  receivedMessageIDsFIFO :=
                    fifoPush c0.receivedMessageIDsFIFO parsedPacket.packetID }
                (put c1,
                  sendEffect (packRCPTOK ks parsedPacket.packetID key
                    parsedPacket.gatewayUID iv8) rinfo ++
                    [Effect.onmessage parsedPacket.gatewayUID parsedPacket.payload])
            else
              -- MSGCONF / CONNACPT / CONNFAIL / unknown: log only
              (put c0, [])

/-- The operations that touch a client's queues: an application `client.send`
(dispatching a MSGCONF via `sendMSG`), an inbound datagram (`process`), and a
periodic `tickClients`. -/
inductive Op where
  | send : List Nat → List Nat → Int → List Nat → Op
  | recv : List Nat → RInfo → Int → List Nat → Op
  | tick : Int → Op

/-- One operation against the server state. -/
def step (ks : KeyStream) (st : Server) : Op → Server × List Effect
  | Op.send uid payload now iv8 =>
    match st.connectedClients.find? (fun c => gatewayUIDsMatch c.gatewayUID uid) with
    | none => (st, [])
    | some c =>
      let r := sendMSG ks now iv8 c 20 (some payload)
      let clients1 := updateFirst (fun cc => gatewayUIDsMatch cc.gatewayUID uid)
        (fun _ => r.1) st.connectedClients
      ({ st with connectedClients := clients1 }, r.2)
  | Op.recv datagram rinfo now iv8 => process ks now iv8 st datagram rinfo
  | Op.tick now => tickClients now st

/-- Run a sequence of operations, discarding effects. -/
def run (ks : KeyStream) (st : Server) : List Op → Server
  | [] => st
  | op :: ops => run ks (step ks st op).1 ops

-- ------------------------------------------------------------------
-- Concrete material for witnesses and counterexamples
-- ------------------------------------------------------------------

/-- A concrete keystream (every keystream byte 0, so XOR is the identity);
any keystream is admissible since AES is external to the repository. -/
def ks0 : KeyStream := fun _ _ _ => 0

/-- The gateway UID `0xAA 0xBB 0xCC 0xDD` used in the spec's scenarios. -/
def uid0 : List Nat := [170, 187, 204, 221]

/-- A concrete 32-byte key. -/
def key0 : List Nat := List.replicate 32 17

/-- A concrete 8-byte IV. -/
def iv0 : List Nat := List.replicate 8 0

/-- A second concrete 8-byte IV. -/
def iv1 : List Nat := [1, 2, 3, 4, 5, 6, 7, 8]

-- ------------------------------------------------------------------
-- C1
-- ------------------------------------------------------------------

/-- C1, counterexample: the claimed length formula
`18 + ceil((8+len(payload))/4)*4` fails on the code.  For an empty payload
the packed datagram has 30 bytes (encrypted plaintext 12 bytes), while the
formula demands 26 (encrypted plaintext 8): `alloc(u + (4 - u % 4))` pads by
4 even when `u = 8 + L` is already a multiple of 4. -/
theorem claim_C1_counterexample :
    (packSSGSCP ks0
        { packetType := 1, gatewayUID := uid0, packetID := 0, payload := none }
        key0 iv0).map List.length = some 30 ∧
      18 + ((8 + 0) + 3) / 4 * 4 = 26 ∧ (30 : Nat) ≠ 26 := by
  refine ⟨?_, by norm_num, by norm_num⟩
  decide

/-- C1, amended: for every packet accepted by `packSSGSCP` (called with an
8-byte IV) the packed datagram has length
`18 + (8 + L) + (4 - (8 + L) % 4)` where `L` is the payload length — i.e. the
padding adds 1 to 4 bytes, never 0; an empty payload yields an encrypted
plaintext of exactly 12 bytes (total 30), not 8. -/
theorem claim_C1_theorem (ks : KeyStream) (packet : OutPacket) (key iv8 d : List Nat)
    (hpack : packSSGSCP ks packet key iv8 = some d) (hiv : iv8.length = 8) :
    d.length = 18 + (8 + (packet.payload.getD []).length) +
      (4 - (8 + (packet.payload.getD []).length) % 4) := by
  simp only [packSSGSCP] at hpack
  split_ifs at hpack with h1 h2 h3
  simp only [Option.some.injEq] at hpack
  subst hpack
  simp only [List.length_append, ctrCrypt_length, encryptedPortionPlaintext_length,
    hiv, PACKET_IDENTIFIER, List.length_cons, List.length_nil]
  omega

/-- C1, witness for the amended claim at a concrete packet. -/
theorem claim_C1_witness :
    ((packSSGSCP ks0
        { packetType := 1, gatewayUID := uid0, packetID := 0, payload := none }
        key0 iv0).getD []).length = 18 + (8 + 0) + (4 - (8 + 0) % 4) :=
  claim_C1_theorem ks0
    { packetType := 1, gatewayUID := uid0, packetID := 0, payload := none }
    key0 iv0 _ (by decide) (by decide)

-- ------------------------------------------------------------------
-- C2
-- ------------------------------------------------------------------

/-- C2: for every packet with `packetType` in `[0,255]`, a 4-byte
`gatewayUID`, `packetID` in `[0,65535]`, payload length in `[0,255]`, and
every 32-byte key, parsing the packed datagram under the same key returns
`authSuccess = true` and reproduces `packetType`, `gatewayUID`, `packetID`
and `payload` bit-exactly. -/
theorem claim_C2_theorem (ks : KeyStream) (packet : OutPacket) (key iv8 : List Nat)
    (htype : packet.packetType ≤ 255) (huid : packet.gatewayUID.length = 4)
    (hpid : packet.packetID ≤ 65535)
    (hpay : (packet.payload.getD []).length ≤ 255)
    (hkey : key.length = 32) (hiv : iv8.length = 8) :
    ∃ d, packSSGSCP ks packet key iv8 = some d ∧
      parseSSGSCP ks d key = some (ParseResult.ok
        { packetType := packet.packetType
          encryptionAuthenticationCode := [0, 1, 2, 3]
          gatewayUID := packet.gatewayUID
          packetID := packet.packetID
          payload := packet.payload.getD [] }) :=
  ⟨_, packSSGSCP_eq ks packet key iv8 htype huid hpid,
    parse_pack ks packet key iv8 htype huid hpid hpay hiv⟩

/-- C2, witness at a concrete packet and key. -/
theorem claim_C2_witness :
    ∃ d, packSSGSCP ks0
        { packetType := 21, gatewayUID := uid0, packetID := 1234,
          payload := some [1, 2, 3] } key0 iv1 = some d ∧
      parseSSGSCP ks0 d key0 = some (ParseResult.ok
        { packetType := 21
          encryptionAuthenticationCode := [0, 1, 2, 3]
          gatewayUID := uid0
          packetID := 1234
          payload := [1, 2, 3] }) :=
  claim_C2_theorem ks0
    { packetType := 21, gatewayUID := uid0, packetID := 1234, payload := some [1, 2, 3] }
    key0 iv1 (by decide) (by decide) (by decide) (by decide) (by decide) (by decide)

-- ------------------------------------------------------------------
-- C3
-- ------------------------------------------------------------------

/-- C3: `parseSSGSCP` returns `null` exactly when the datagram is shorter
than 26 bytes or its first 6 bytes are not the magic "SSGSCP"; otherwise, if
the 4 decrypted bytes at plaintext offset 1 differ from `[0,1,2,3]` it
returns the bare `authSuccess = false` object, and otherwise it returns all
fields, the payload truncated to the declared `payloadLength` byte. -/
theorem claim_C3_theorem (ks : KeyStream) (datagram key : List Nat) :
    (parseSSGSCP ks datagram key = none ↔
      datagram.length < 26 ∨ bufferContainsValues datagram 0 PACKET_IDENTIFIER = false) ∧
    (isSSGSCP datagram = true →
      (bufferContainsValues (((decryptedPortion ks datagram key).drop 1).take 4) 0
            [0, 1, 2, 3] = false →
        parseSSGSCP ks datagram key = some ParseResult.authFail) ∧
      (bufferContainsValues (((decryptedPortion ks datagram key).drop 1).take 4) 0
            [0, 1, 2, 3] = true →
        parseSSGSCP ks datagram key = some (ParseResult.ok
          { packetType := (decryptedPortion ks datagram key).getD 0 0
            encryptionAuthenticationCode :=
              ((decryptedPortion ks datagram key).drop 1).take 4
            gatewayUID := (datagram.drop 14).take 4
            packetID := getU16BE (((decryptedPortion ks datagram key).drop 5).take 2)
            payload := ((decryptedPortion ks datagram key).drop 8).take
              ((decryptedPortion ks datagram key).getD 7 0) }))) := by
  constructor
  · by_cases h1 : datagram.length < 26
    · have hss : isSSGSCP datagram = false := by
        simp only [isSSGSCP]
        rw [if_pos (by omega)]
      simp [parseSSGSCP, hss, h1]
    · by_cases h2 : bufferContainsValues datagram 0 PACKET_IDENTIFIER
      · have hss : isSSGSCP datagram = true := by
          simp only [isSSGSCP]
          rw [if_neg (by omega)]
          exact h2
        simp only [parseSSGSCP, hss]
        constructor
        · intro h
          split_ifs at h <;> simp_all
        · intro h
          rcases h with h | h
          · omega
          · rw [h2] at h
            exact absurd h (by simp)
      · have hss : isSSGSCP datagram = false := by
          simp only [isSSGSCP]
          rw [if_neg (by omega)]
          simpa using h2
        simp only [parseSSGSCP, hss]
        simp only [Bool.false_eq_true, not_false_eq_true, if_pos]
        constructor
        · intro _
          right
          simpa using h2
        · intro _
          trivial
  · intro hss
    constructor
    · intro hcode
      rw [List.drop_one] at hcode
      simp only [parseSSGSCP, hss]
      rw [if_neg (by simp), if_pos (by simp [hcode])]
    · intro hcode
      rw [List.drop_one] at hcode
      simp only [parseSSGSCP, hss]
      rw [if_neg (by simp), if_neg (by simp [hcode])]

/-- C3, witness: the three behaviors at concrete datagrams — a short
datagram parses to `null`, a corrupted auth tag to `authSuccess = false`,
and a well-formed datagram to the full field set. -/
theorem claim_C3_witness :
    parseSSGSCP ks0 [83, 83, 71, 83, 67, 80, 0, 0] key0 = none ∧
    parseSSGSCP ks0
      (PACKET_IDENTIFIER ++ iv0 ++ uid0 ++ [21, 9, 9, 9, 9, 0, 7, 0]) key0 =
      some ParseResult.authFail := by
  constructor
  · exact (claim_C3_theorem ks0 [83, 83, 71, 83, 67, 80, 0, 0] key0).1.mpr
      (Or.inl (by decide))
  · exact ((claim_C3_theorem ks0
      (PACKET_IDENTIFIER ++ iv0 ++ uid0 ++ [21, 9, 9, 9, 9, 0, 7, 0]) key0).2
      (by decide)).1 (by decide)

-- ------------------------------------------------------------------
-- C10
-- ------------------------------------------------------------------

/-- The packed datagram of a MSGSTATUS whose payload has 260 bytes. -/
def d10 : List Nat :=
  (packSSGSCP ks0
    { packetType := 21, gatewayUID := uid0, packetID := 3,
      payload := some (List.replicate 260 9) }
    key0 iv0).getD []

set_option maxRecDepth 40000 in
/-- C10: `packSSGSCP` does not reject payloads longer than 255 bytes.  For a
260-byte payload it returns a datagram whose declared payload-length byte is
`260 % 256 = 4`, and parsing that datagram under the same key succeeds with
`authSuccess = true` and a payload of only 4 bytes, not the original 260. -/
theorem claim_C10_theorem :
    packSSGSCP ks0
        { packetType := 21, gatewayUID := uid0, packetID := 3,
          payload := some (List.replicate 260 9) }
        key0 iv0 = some d10 ∧
      (decryptedPortion ks0 d10 key0).getD 7 0 = 260 % 256 ∧
      parseSSGSCP ks0 d10 key0 = some (ParseResult.ok
        { packetType := 21
          encryptionAuthenticationCode := [0, 1, 2, 3]
          gatewayUID := uid0
          packetID := 3
          payload := List.replicate 4 9 }) ∧
      List.replicate 4 9 ≠ List.replicate 260 9 := by
  refine ⟨by decide, by decide, by decide, by decide⟩

-- ------------------------------------------------------------------
-- C5
-- ------------------------------------------------------------------

/-- The data of one application `client.send(payload)` call: the `Date.now()`
value at the call and the random IV drawn while packing. -/
structure SendCall where
  now : Int
  iv8 : List Nat
  payload : List Nat
deriving DecidableEq

/-- The `client.send` closure: `sendMSG(client, PacketType.MSGCONF, payload)`. -/
def clientSend (ks : KeyStream) (call : SendCall) (c : Client) : Client × List Effect :=
  sendMSG ks call.now call.iv8 c 20 (some call.payload)

/-- A sequence of `client.send` calls, collecting each call's effects. -/
def sendSeq (ks : KeyStream) (c : Client) : List SendCall → Client × List (List Effect)
  | [] => (c, [])
  | call :: rest =>
    let r := clientSend ks call c
    let r2 := sendSeq ks r.1 rest
    (r2.1, r.2 :: r2.2)

theorem sendMSG_step (ks : KeyStream) (now : Int) (iv8 : List Nat) (c : Client)
    (pt : Nat) (payload : Option (List Nat)) (htype : pt ≤ 255)
    (huid : c.gatewayUID.length = 4) (hpid : c.sendPacketID ≤ 65535) :
    ∃ p, packSSGSCP ks
        { packetType := pt, gatewayUID := c.gatewayUID,
          packetID := c.sendPacketID, payload := payload } c.key iv8 = some p ∧
      sendMSG ks now iv8 c pt payload =
        ({ c with
            sentMessages := sentPush c.sentMessages
              { packetID := c.sendPacketID, timestamp := now, packet := p }
            sendPacketID := (c.sendPacketID + 1) % 65536 },
          [Effect.sent p c.sourcePort c.remoteAddress]) := by
  have hp := packSSGSCP_eq ks
    { packetType := pt, gatewayUID := c.gatewayUID,
      packetID := c.sendPacketID, payload := payload } c.key iv8 htype huid hpid
  exact ⟨_, hp, by rw [sendMSG, hp]⟩

/-- C5: with `s` the client's `sendPacketID` beforehand (`s < 2^16`, as the
code maintains) and a 4-byte client UID (so every pack succeeds), `N`
successive `client.send` calls emit exactly one MSGCONF datagram each, packed
with `packetID` values `(s+0) % 2^16, ..., (s+N-1) % 2^16` in call order, and
afterwards `sendPacketID = (s+N) % 2^16`. -/
theorem claim_C5_theorem (ks : KeyStream) (c : Client) (calls : List SendCall)
    (huid : c.gatewayUID.length = 4) (hpid : c.sendPacketID < 65536) :
    (sendSeq ks c calls).1.sendPacketID = (c.sendPacketID + calls.length) % 65536 ∧
    (sendSeq ks c calls).2.length = calls.length ∧
    ∀ k, (hk : k < calls.length) → ∃ p,
      packSSGSCP ks
        { packetType := 20, gatewayUID := c.gatewayUID,
          packetID := (c.sendPacketID + k) % 65536,
          payload := some (calls.get ⟨k, hk⟩).payload }
        c.key (calls.get ⟨k, hk⟩).iv8 = some p ∧
      (sendSeq ks c calls).2.getD k [] =
        [Effect.sent p c.sourcePort c.remoteAddress] := by
  induction calls generalizing c with
  | nil =>
    refine ⟨?_, rfl, by intro k hk; simp at hk⟩
    simp [sendSeq, Nat.mod_eq_of_lt hpid]
  | cons call rest ih =>
    obtain ⟨p, hp, hstep⟩ := sendMSG_step ks call.now call.iv8 c 20 (some call.payload)
      (by omega) huid (by omega)
    set c1 : Client := { c with
      sentMessages := sentPush c.sentMessages
        { packetID := c.sendPacketID, timestamp := call.now, packet := p }
      sendPacketID := (c.sendPacketID + 1) % 65536 } with hc1
    have hseq : sendSeq ks c (call :: rest) =
        ((sendSeq ks c1 rest).1,
          [Effect.sent p c.sourcePort c.remoteAddress] :: (sendSeq ks c1 rest).2) := by
      simp only [sendSeq, clientSend, hstep]
    obtain ⟨ih1, ih2, ih3⟩ := ih c1 huid (Nat.mod_lt _ (by omega))
    refine ⟨?_, ?_, ?_⟩
    · rw [hseq]
      simp only at ih1 ⊢
      rw [ih1]
      simp only [List.length_cons]
      omega
    · rw [hseq]
      simp only [List.length_cons, ih2]
    · intro k hk
      match k with
      | 0 =>
        refine ⟨p, ?_, ?_⟩
        · simpa [Nat.mod_eq_of_lt hpid] using hp
        · rw [hseq]
          rfl
      | Nat.succ k' =>
        have hk' : k' < rest.length := by simpa [Nat.succ_lt_succ_iff] using hk
        obtain ⟨p', hp', heff⟩ := ih3 k' hk'
        refine ⟨p', ?_, ?_⟩
        · have hid : ((c.sendPacketID + 1) % 65536 + k') % 65536 =
              (c.sendPacketID + (k' + 1)) % 65536 := by omega
          simpa [hid] using hp'
        · rw [hseq]
          simpa using heff

/-- A connected client used in witnesses (matching the spec's scenarios). -/
def client0 : Client :=
  { gatewayUID := uid0, sourcePort := 40000, remoteAddress := "10.0.0.2",
    lastSeen := 0, sendPacketID := 0, retransmissionTimeout := 2000,
    sentMessages := [], receivedMessageIDsFIFO := [], key := key0 }

/-- C5, witness: two concrete sends advance `sendPacketID` from 0 to 2. -/
theorem claim_C5_witness :
    (sendSeq ks0 client0
      [{ now := 10, iv8 := iv0, payload := [1] },
       { now := 20, iv8 := iv1, payload := [2, 3] }]).1.sendPacketID =
      (client0.sendPacketID + 2) % 65536 :=
  (claim_C5_theorem ks0 client0
    [{ now := 10, iv8 := iv0, payload := [1] },
     { now := 20, iv8 := iv1, payload := [2, 3] }]
    (by decide) (by decide)).1

-- ------------------------------------------------------------------
-- C7
-- ------------------------------------------------------------------

theorem tickMessages_spec (now rto : Int) (port : Nat) (address : String)
    (msgs : List SentMessage) (count : Nat) :
    (tickMessages now rto port address count msgs).2.length ≤ 10 - count ∧
    List.Forall₂ (fun m m' => m' = m ∨
        (rto < now - m.timestamp ∧ m' = { m with timestamp := now } ∧
          Effect.sent m.packet port address ∈
            (tickMessages now rto port address count msgs).2))
      msgs (tickMessages now rto port address count msgs).1 ∧
    ∀ e ∈ (tickMessages now rto port address count msgs).2,
      ∃ m ∈ msgs, rto < now - m.timestamp ∧ e = Effect.sent m.packet port address := by
  induction msgs generalizing count with
  | nil => exact ⟨by simp [tickMessages], by simp [tickMessages], by simp [tickMessages]⟩
  | cons m rest ih =>
    by_cases hc : count < 10 ∧ rto < now - m.timestamp
    · obtain ⟨ih1, ih2, ih3⟩ := ih (count + 1)
      have ht : tickMessages now rto port address count (m :: rest) =
          ({ m with timestamp := now } :: (tickMessages now rto port address (count + 1) rest).1,
            Effect.sent m.packet port address ::
              (tickMessages now rto port address (count + 1) rest).2) := by
        rw [tickMessages, if_pos hc]
      rw [ht]
      refine ⟨by simp only [List.length_cons]; omega, ?_, ?_⟩
      · refine List.Forall₂.cons
          (Or.inr ⟨hc.2, rfl, List.mem_cons_self _ _⟩) (ih2.imp ?_)
        intro a b hab
        rcases hab with hab | ⟨h1, h2, h3⟩
        · exact Or.inl hab
        · exact Or.inr ⟨h1, h2, List.mem_cons_of_mem _ h3⟩
      · intro e he
        rcases List.mem_cons.mp he with he | he
        · exact ⟨m, List.mem_cons_self m rest, hc.2, he⟩
        · obtain ⟨m', hm', hcond, heq⟩ := ih3 e he
          exact ⟨m', List.mem_cons_of_mem m hm', hcond, heq⟩
    · obtain ⟨ih1, ih2, ih3⟩ := ih count
      have ht : tickMessages now rto port address count (m :: rest) =
          (m :: (tickMessages now rto port address count rest).1,
            (tickMessages now rto port address count rest).2) := by
        rw [tickMessages, if_neg hc]
      rw [ht]
      refine ⟨by simpa using ih1, List.Forall₂.cons (Or.inl rfl) ih2, ?_⟩
      intro e he
      obtain ⟨m', hm', hcond, heq⟩ := ih3 e he
      exact ⟨m', List.mem_cons_of_mem m hm', hcond, heq⟩

/-- C7: in a single tick a client is sent at most 10 retransmissions no
matter how long `sentMessages` is; every retransmission is the stored packed
bytes of an entry whose age exceeds `retransmissionTimeout`, sent to the
client's endpoint; and each entry of the queue is either untouched or (when
overdue and retransmitted) has its timestamp set to `now`.  `tickClients`
applies exactly this to every connected client. -/
theorem claim_C7_theorem (now : Int) (c : Client) :
    (tickClient now c).2.length ≤ 10 ∧
    List.Forall₂ (fun m m' => m' = m ∨
        (c.retransmissionTimeout < now - m.timestamp ∧ m' = { m with timestamp := now } ∧
          Effect.sent m.packet c.sourcePort c.remoteAddress ∈ (tickClient now c).2))
      c.sentMessages (tickClient now c).1.sentMessages ∧
    (∀ e ∈ (tickClient now c).2,
      ∃ m ∈ c.sentMessages, c.retransmissionTimeout < now - m.timestamp ∧
        e = Effect.sent m.packet c.sourcePort c.remoteAddress) ∧
    ∀ st : Server, (tickClients now st).2 =
      (st.connectedClients.map fun cc => (tickClient now cc).2).flatten := by
  obtain ⟨h1, h2, h3⟩ := tickMessages_spec now c.retransmissionTimeout c.sourcePort
    c.remoteAddress c.sentMessages 0
  exact ⟨by simpa using h1, h2, h3, fun st => by simp [tickClients, List.map_map]; rfl⟩

/-- A client with an overdue sent message, for the C7 witness. -/
def tickClient0 : Client :=
  { client0 with sentMessages := [{ packetID := 5, timestamp := 0, packet := [1, 2, 3] }] }

/-- C7, witness: at a concrete overdue queue the tick emits at most 10
retransmissions, and the concrete emitted effect corresponds to an overdue
entry's stored bytes. -/
theorem claim_C7_witness :
    (tickClient 3000 tickClient0).2.length ≤ 10 ∧
    ∃ m ∈ tickClient0.sentMessages, tickClient0.retransmissionTimeout < 3000 - m.timestamp ∧
      Effect.sent [1, 2, 3] tickClient0.sourcePort tickClient0.remoteAddress =
        Effect.sent m.packet tickClient0.sourcePort tickClient0.remoteAddress :=
  ⟨(claim_C7_theorem 3000 tickClient0).1,
    (claim_C7_theorem 3000 tickClient0).2.2.1
      (Effect.sent [1, 2, 3] tickClient0.sourcePort tickClient0.remoteAddress)
      (by decide)⟩

-- ------------------------------------------------------------------
-- Facts about parse results and client lookup, shared by C4/C8/C9
-- ------------------------------------------------------------------

theorem parse_ok_uid (ks : KeyStream) (d key : List Nat) (f : ParsedFields)
    (h : parseSSGSCP ks d key = some (ParseResult.ok f)) :
    isSSGSCP d = true ∧ parsePacketGatewayUID d = some f.gatewayUID ∧
      f.gatewayUID.length = 4 := by
  have hss : isSSGSCP d = true := by
    by_cases hs : isSSGSCP d
    · exact hs
    · rw [parseSSGSCP, if_pos (by simpa using hs)] at h
      cases h
  have h26 : 26 ≤ d.length := by
    rw [isSSGSCP] at hss
    split_ifs at hss with h1
    omega
  have huid : f.gatewayUID = (d.drop 14).take 4 := by
    simp only [parseSSGSCP, hss, not_true_eq_false, if_false, Bool.true_eq_false,
      not_false_eq_true, ite_false, ite_true] at h
    split_ifs at h with h2
    · simp only [Option.some.injEq, ParseResult.ok.injEq] at h
      rw [← h]
    · simp at h
  refine ⟨hss, ?_, ?_⟩
  · rw [parsePacketGatewayUID, if_pos (by simp [hss]), huid]
  · rw [huid]
    simp only [List.length_take, List.length_drop]
    omega

theorem find?_updateFirst (p : Client → Bool) (c c' : Client) (l : List Client)
    (hfind : l.find? p = some c) (hc' : p c' = true) :
    (updateFirst p (fun _ => c') l).find? p = some c' := by
  induction l with
  | nil => cases hfind
  | cons a rest ih =>
    by_cases hp : p a
    · rw [updateFirst, if_pos hp, List.find?_cons_of_pos _ hc']
    · rw [List.find?_cons_of_neg _ hp] at hfind
      rw [updateFirst, if_neg hp, List.find?_cons_of_neg _ hp]
      exact ih hfind

theorem fifoPush_contains (l : List Nat) (a : Nat) :
    (fifoPush l a).contains a = true := by
  rw [fifoPush]
  split_ifs with h
  · cases l with
    | nil => simp [RECV_MSG_FIFO_MAX_LEN] at h
    | cons x xs =>
      simp only [List.cons_append, List.tail_cons]
      simp [List.contains_eq_any_beq]
  · simp [List.contains_eq_any_beq]

-- Branch characterizations of `process` for an existing client.

theorem process_msgstatus_fresh (ks : KeyStream) (now : Int) (iv8 : List Nat)
    (st : Server) (datagram : List Nat) (rinfo : RInfo) (key : List Nat)
    (f : ParsedFields) (c : Client)
    (hAuth : isAuthorizedGateway st f.gatewayUID = true)
    (hKey : getGatewayKey st f.gatewayUID = some key)
    (hParse : parseSSGSCP ks datagram key = some (ParseResult.ok f))
    (hType : f.packetType = 21)
    (hFind : st.connectedClients.find?
      (fun cc => gatewayUIDsMatch cc.gatewayUID f.gatewayUID) = some c)
    (hFresh : c.receivedMessageIDsFIFO.contains f.packetID = false) :
    process ks now iv8 st datagram rinfo =
      ({ st with
          connectedClients :=
            updateFirst (fun cc => gatewayUIDsMatch cc.gatewayUID f.gatewayUID)
              (fun _ => { c with
                lastSeen := now
                receivedMessageIDsFIFO := fifoPush c.receivedMessageIDsFIFO f.packetID })
              st.connectedClients },
        sendEffect (packRCPTOK ks f.packetID key f.gatewayUID iv8) rinfo ++
          [Effect.onmessage f.gatewayUID f.payload]) := by
  obtain ⟨hss, hPUID, hulen⟩ := parse_ok_uid ks datagram key f hParse
  have hmem : f.packetID ∉ c.receivedMessageIDsFIFO := by simpa using hFresh
  simp [process, hPUID, hAuth, hKey, hParse, hFind, hType, hmem]

theorem process_msgstatus_dup (ks : KeyStream) (now : Int) (iv8 : List Nat)
    (st : Server) (datagram : List Nat) (rinfo : RInfo) (key : List Nat)
    (f : ParsedFields) (c : Client)
    (hAuth : isAuthorizedGateway st f.gatewayUID = true)
    (hKey : getGatewayKey st f.gatewayUID = some key)
    (hParse : parseSSGSCP ks datagram key = some (ParseResult.ok f))
    (hType : f.packetType = 21)
    (hFind : st.connectedClients.find?
      (fun cc => gatewayUIDsMatch cc.gatewayUID f.gatewayUID) = some c)
    (hDup : c.receivedMessageIDsFIFO.contains f.packetID = true) :
    process ks now iv8 st datagram rinfo =
      ({ st with
          connectedClients :=
            updateFirst (fun cc => gatewayUIDsMatch cc.gatewayUID f.gatewayUID)
              (fun _ => { c with lastSeen := now }) st.connectedClients },
        sendEffect (packRCPTOK ks f.packetID key f.gatewayUID iv8) rinfo) := by
  obtain ⟨hss, hPUID, hulen⟩ := parse_ok_uid ks datagram key f hParse
  have hmem : f.packetID ∈ c.receivedMessageIDsFIFO := by simpa using hDup
  simp [process, hPUID, hAuth, hKey, hParse, hFind, hType, hmem]

-- ------------------------------------------------------------------
-- C4
-- ------------------------------------------------------------------

/-- C4: for a connected client, processing the same authenticated MSGSTATUS
datagram twice — its `packetID` being fresh at the first delivery, and still
in `receivedMessageIDsFIFO` at the second — sends a RCPTOK for that
`packetID` both times, but the `onmessage` callback is invoked exactly once
(on the first delivery only). -/
theorem claim_C4_theorem (ks : KeyStream) (now1 now2 : Int) (ivA ivB : List Nat)
    (st : Server) (datagram : List Nat) (r1 r2 : RInfo) (key : List Nat)
    (f : ParsedFields) (c : Client)
    (hAuth : isAuthorizedGateway st f.gatewayUID = true)
    (hKey : getGatewayKey st f.gatewayUID = some key)
    (hParse : parseSSGSCP ks datagram key = some (ParseResult.ok f))
    (hType : f.packetType = 21)
    (hPid : f.packetID ≤ 65535)
    (hFind : st.connectedClients.find?
      (fun cc => gatewayUIDsMatch cc.gatewayUID f.gatewayUID) = some c)
    (hFresh : c.receivedMessageIDsFIFO.contains f.packetID = false) :
    ∃ p1 p2,
      packRCPTOK ks f.packetID key f.gatewayUID ivA = some p1 ∧
      packRCPTOK ks f.packetID key f.gatewayUID ivB = some p2 ∧
      (process ks now1 ivA st datagram r1).2 =
        [Effect.sent p1 r1.port r1.address, Effect.onmessage f.gatewayUID f.payload] ∧
      (process ks now2 ivB (process ks now1 ivA st datagram r1).1 datagram r2).2 =
        [Effect.sent p2 r2.port r2.address] := by
  obtain ⟨hss, hPUID, hulen⟩ := parse_ok_uid ks datagram key f hParse
  have hp1 := packSSGSCP_eq ks
    { packetType := 10, gatewayUID := f.gatewayUID, packetID := f.packetID, payload := none }
    key ivA (by simp) hulen hPid
  have hp2 := packSSGSCP_eq ks
    { packetType := 10, gatewayUID := f.gatewayUID, packetID := f.packetID, payload := none }
    key ivB (by simp) hulen hPid
  have h1 := process_msgstatus_fresh ks now1 ivA st datagram r1 key f c
    hAuth hKey hParse hType hFind hFresh
  -- state after the first delivery
  set c1 : Client := { c with
    lastSeen := now1
    receivedMessageIDsFIFO := fifoPush c.receivedMessageIDsFIFO f.packetID } with hc1
  have hPc : gatewayUIDsMatch c.gatewayUID f.gatewayUID = true := by
    have hq := List.find?_some hFind
    simpa using hq
  have hFind1 : ((process ks now1 ivA st datagram r1).1).connectedClients.find?
      (fun cc => gatewayUIDsMatch cc.gatewayUID f.gatewayUID) = some c1 := by
    rw [h1]
    exact find?_updateFirst _ c c1 st.connectedClients hFind hPc
  have hAuth1 : isAuthorizedGateway (process ks now1 ivA st datagram r1).1 f.gatewayUID = true := by
    rw [h1]
    exact hAuth
  have hKey1 : getGatewayKey (process ks now1 ivA st datagram r1).1 f.gatewayUID = some key := by
    rw [h1]
    exact hKey
  have hDup1 : c1.receivedMessageIDsFIFO.contains f.packetID = true :=
    fifoPush_contains c.receivedMessageIDsFIFO f.packetID
  have h2 := process_msgstatus_dup ks now2 ivB (process ks now1 ivA st datagram r1).1
    datagram r2 key f c1 hAuth1 hKey1 hParse hType hFind1 hDup1
  refine ⟨_, _, hp1, hp2, ?_, ?_⟩
  · rw [h1, packRCPTOK, hp1]
    rfl
  · rw [h2, packRCPTOK, hp2]
    rfl

/-- The server used in witnesses: gateway `uid0`/`key0` authorized,
`client0` connected. -/
def server0 : Server :=
  { authorizedGateways := [{ gatewayUID := uid0, key := key0 }],
    connectedClients := [client0] }

/-- A concrete authenticated MSGSTATUS datagram (packetID 7, payload [5,6]). -/
def datagramMS : List Nat :=
  (packSSGSCP ks0
    { packetType := 21, gatewayUID := uid0, packetID := 7, payload := some [5, 6] }
    key0 iv0).getD []

/-- Its parsed fields. -/
def msgFields0 : ParsedFields :=
  { packetType := 21, encryptionAuthenticationCode := [0, 1, 2, 3],
    gatewayUID := uid0, packetID := 7, payload := [5, 6] }

/-- The spec's client endpoint. -/
def rinfo0 : RInfo := { address := "10.0.0.2", port := 40000 }

/-- C4, witness: the double delivery at a concrete server, client and
MSGSTATUS datagram. -/
theorem claim_C4_witness :
    ∃ p1 p2,
      packRCPTOK ks0 msgFields0.packetID key0 msgFields0.gatewayUID iv0 = some p1 ∧
      packRCPTOK ks0 msgFields0.packetID key0 msgFields0.gatewayUID iv1 = some p2 ∧
      (process ks0 100 iv0 server0 datagramMS rinfo0).2 =
        [Effect.sent p1 rinfo0.port rinfo0.address,
          Effect.onmessage msgFields0.gatewayUID msgFields0.payload] ∧
      (process ks0 200 iv1 (process ks0 100 iv0 server0 datagramMS rinfo0).1
          datagramMS rinfo0).2 =
        [Effect.sent p2 rinfo0.port rinfo0.address] :=
  claim_C4_theorem ks0 100 200 iv0 iv1 server0 datagramMS rinfo0 rinfo0 key0
    msgFields0 client0 (by decide) (by decide) (by decide) (by decide) (by decide)
    (by decide) (by decide)

-- ------------------------------------------------------------------
-- C8
-- ------------------------------------------------------------------

theorem process_conn_existing (ks : KeyStream) (now : Int) (iv8 : List Nat)
    (st : Server) (datagram : List Nat) (rinfo : RInfo) (key : List Nat)
    (f : ParsedFields) (c : Client)
    (hAuth : isAuthorizedGateway st f.gatewayUID = true)
    (hKey : getGatewayKey st f.gatewayUID = some key)
    (hParse : parseSSGSCP ks datagram key = some (ParseResult.ok f))
    (hType : f.packetType = 1)
    (hFind : st.connectedClients.find?
      (fun cc => gatewayUIDsMatch cc.gatewayUID f.gatewayUID) = some c) :
    process ks now iv8 st datagram rinfo =
      ({ st with
          connectedClients :=
            updateFirst (fun cc => gatewayUIDsMatch cc.gatewayUID f.gatewayUID)
              (fun _ => { c with
                lastSeen := now
                sendPacketID := 0
                retransmissionTimeout := 2000
                sentMessages := []
                receivedMessageIDsFIFO := []
                remoteAddress := rinfo.address
                sourcePort := rinfo.port }) st.connectedClients },
        sendEffect (packCONNACPT ks key f.gatewayUID iv8) rinfo ++
          [Effect.scheduleReconnect f.gatewayUID 2000]) := by
  obtain ⟨hss, hPUID, hulen⟩ := parse_ok_uid ks datagram key f hParse
  simp [process, hPUID, hAuth, hKey, hParse, hFind, hType]

/-- C8: a second authenticated CONN from an already-connected UID resets the
client — `sendPacketID = 0`, empty `sentMessages` and
`receivedMessageIDsFIFO`, `remoteAddress`/`sourcePort` taken from the new
datagram's source endpoint — sends a CONNACPT (packed under the gateway key)
to that new endpoint, and schedules `onreconnect` after
`retransmissionTimeout` = 2000 ms. -/
theorem claim_C8_theorem (ks : KeyStream) (now : Int) (iv8 : List Nat)
    (st : Server) (datagram : List Nat) (rinfo : RInfo) (key : List Nat)
    (f : ParsedFields) (c : Client)
    (hAuth : isAuthorizedGateway st f.gatewayUID = true)
    (hKey : getGatewayKey st f.gatewayUID = some key)
    (hParse : parseSSGSCP ks datagram key = some (ParseResult.ok f))
    (hType : f.packetType = 1)
    (hFind : st.connectedClients.find?
      (fun cc => gatewayUIDsMatch cc.gatewayUID f.gatewayUID) = some c) :
    ∃ p, packCONNACPT ks key f.gatewayUID iv8 = some p ∧
      (process ks now iv8 st datagram rinfo).2 =
        [Effect.sent p rinfo.port rinfo.address,
          Effect.scheduleReconnect f.gatewayUID 2000] ∧
      ∃ c', ((process ks now iv8 st datagram rinfo).1).connectedClients.find?
          (fun cc => gatewayUIDsMatch cc.gatewayUID f.gatewayUID) = some c' ∧
        c'.sendPacketID = 0 ∧ c'.sentMessages = [] ∧
        c'.receivedMessageIDsFIFO = [] ∧ c'.remoteAddress = rinfo.address ∧
        c'.sourcePort = rinfo.port ∧ c'.retransmissionTimeout = 2000 := by
  obtain ⟨hss, hPUID, hulen⟩ := parse_ok_uid ks datagram key f hParse
  have hp := packSSGSCP_eq ks
    { packetType := 2, gatewayUID := f.gatewayUID, packetID := 0, payload := none }
    key iv8 (by simp) hulen (by simp)
  have h1 := process_conn_existing ks now iv8 st datagram rinfo key f c
    hAuth hKey hParse hType hFind
  have hPc : gatewayUIDsMatch c.gatewayUID f.gatewayUID = true := by
    have hq := List.find?_some hFind
    simpa using hq
  refine ⟨_, hp, ?_, ?_⟩
  · rw [h1, packCONNACPT, hp]
    rfl
  · refine ⟨{ c with
      lastSeen := now
      sendPacketID := 0
      retransmissionTimeout := 2000
      sentMessages := []
      receivedMessageIDsFIFO := []
      remoteAddress := rinfo.address
      sourcePort := rinfo.port }, ?_, rfl, rfl, rfl, rfl, rfl, rfl⟩
    rw [h1]
    exact find?_updateFirst _ c _ st.connectedClients hFind hPc

/-- A concrete authenticated CONN datagram for `uid0`. -/
def datagramCONN : List Nat :=
  (packSSGSCP ks0
    { packetType := 1, gatewayUID := uid0, packetID := 0, payload := none }
    key0 iv1).getD []

/-- Fields of `datagramCONN`. -/
def connFields0 : ParsedFields :=
  { packetType := 1, encryptionAuthenticationCode := [0, 1, 2, 3],
    gatewayUID := uid0, packetID := 0, payload := [] }

/-- The new endpoint after the gateway restarts (new ephemeral port). -/
def rinfo1 : RInfo := { address := "10.0.0.2", port := 40001 }

/-- C8, witness: the reconnect reset at a concrete server and CONN datagram
arriving from a new port. -/
theorem claim_C8_witness :
    ∃ p, packCONNACPT ks0 key0 connFields0.gatewayUID iv1 = some p ∧
      (process ks0 500 iv1 server0 datagramCONN rinfo1).2 =
        [Effect.sent p rinfo1.port rinfo1.address,
          Effect.scheduleReconnect connFields0.gatewayUID 2000] ∧
      ∃ c', ((process ks0 500 iv1 server0 datagramCONN rinfo1).1).connectedClients.find?
          (fun cc => gatewayUIDsMatch cc.gatewayUID connFields0.gatewayUID) = some c' ∧
        c'.sendPacketID = 0 ∧ c'.sentMessages = [] ∧
        c'.receivedMessageIDsFIFO = [] ∧ c'.remoteAddress = rinfo1.address ∧
        c'.sourcePort = rinfo1.port ∧ c'.retransmissionTimeout = 2000 :=
  claim_C8_theorem ks0 500 iv1 server0 datagramCONN rinfo1 key0 connFields0 client0
    (by decide) (by decide) (by decide) (by decide) (by decide)

-- ------------------------------------------------------------------
-- C9
-- ------------------------------------------------------------------

/-- C9: for an inbound datagram whose parsed UID is not in the authorized
table the server sends nothing and changes no state (silent drop, no client
created); whereas for an authorized UID whose decryption or auth-tag check
fails (`parseSSGSCP` returning `null` or `authSuccess = false`), the server
sends exactly one CONNFAIL — packed with a 32-byte zero key and echoing the
claimed UID — and changes no state. -/
theorem claim_C9_theorem (ks : KeyStream) (now : Int) (iv8 : List Nat)
    (st : Server) (datagram : List Nat) (rinfo : RInfo) (uid : List Nat)
    (hUID : parsePacketGatewayUID datagram = some uid) :
    (isAuthorizedGateway st uid = false →
      process ks now iv8 st datagram rinfo = (st, [])) ∧
    (∀ key, isAuthorizedGateway st uid = true → getGatewayKey st uid = some key →
      (parseSSGSCP ks datagram key = none ∨
        parseSSGSCP ks datagram key = some ParseResult.authFail) →
      ∃ p, packSSGSCP ks
          { packetType := 3, gatewayUID := uid, packetID := 0, payload := none }
          (List.replicate 32 0) iv8 = some p ∧
        process ks now iv8 st datagram rinfo = (st, [Effect.sent p rinfo.port rinfo.address])) := by
  have hulen : uid.length = 4 := by
    rw [parsePacketGatewayUID] at hUID
    split_ifs at hUID with hss
    rw [isSSGSCP] at hss
    split_ifs at hss with h1
    simp only [Option.some.injEq] at hUID
    rw [← hUID]
    simp only [List.length_take, List.length_drop]
    omega
  constructor
  · intro hAuth
    simp [process, hUID, hAuth]
  · intro key hAuth hKey hP
    have hp := packSSGSCP_eq ks
      { packetType := 3, gatewayUID := uid, packetID := 0, payload := none }
      (List.replicate 32 0) iv8 (by simp) hulen (by simp)
    refine ⟨_, hp, ?_⟩
    rcases hP with hP | hP
    · simp only [process, hUID, hAuth, Bool.true_eq_false, not_true_eq_false,
        if_false, ite_false, hKey, hP]
      rw [packCONNFAIL, hp]
      rfl
    · simp only [process, hUID, hAuth, Bool.true_eq_false, not_true_eq_false,
        if_false, ite_false, hKey, hP]
      rw [packCONNFAIL, hp]
      rfl

/-- An unauthorized gateway UID (the spec's scenario 2). -/
def uidBad : List Nat := [0, 0, 0, 1]

/-- A well-formed datagram claiming the unauthorized UID. -/
def datagramBad : List Nat :=
  (packSSGSCP ks0
    { packetType := 1, gatewayUID := uidBad, packetID := 0, payload := none }
    key0 iv0).getD []

/-- A datagram for the authorized `uid0` whose decrypted auth-tag bytes are
not `[0,1,2,3]` (the zero keystream makes the corruption explicit). -/
def datagramCorrupt : List Nat :=
  PACKET_IDENTIFIER ++ iv0 ++ uid0 ++ [1, 9, 9, 9, 9, 0, 0, 0]

/-- C9, witness: at concrete datagrams — the unauthorized UID is dropped
silently with no state change, and the corrupted-tag datagram for the
authorized UID draws exactly one zero-key CONNFAIL with no state change. -/
theorem claim_C9_witness :
    process ks0 0 iv0 server0 datagramBad rinfo0 = (server0, []) ∧
    ∃ p, packSSGSCP ks0
        { packetType := 3, gatewayUID := uid0, packetID := 0, payload := none }
        (List.replicate 32 0) iv0 = some p ∧
      process ks0 0 iv0 server0 datagramCorrupt rinfo0 =
        (server0, [Effect.sent p rinfo0.port rinfo0.address]) :=
  ⟨(claim_C9_theorem ks0 0 iv0 server0 datagramBad rinfo0 uidBad (by decide)).1
      (by decide),
    (claim_C9_theorem ks0 0 iv0 server0 datagramCorrupt rinfo0 uid0 (by decide)).2
      key0 (by decide) (by decide) (Or.inr (by decide))⟩

-- ------------------------------------------------------------------
-- C6
-- ------------------------------------------------------------------

/-- Both per-client queues respect their bounds. -/
def ClientBounded (c : Client) : Prop :=
  c.sentMessages.length ≤ SENT_MSG_LIST_MAX_LEN ∧
  c.receivedMessageIDsFIFO.length ≤ RECV_MSG_FIFO_MAX_LEN

theorem sentPush_length (msgs : List SentMessage) (m : SentMessage)
    (h : msgs.length ≤ SENT_MSG_LIST_MAX_LEN) :
    (sentPush msgs m).length ≤ SENT_MSG_LIST_MAX_LEN := by
  rw [sentPush]
  split_ifs with h1
  · simp only [List.length_tail, List.length_append, List.length_singleton]
    omega
  · simp only [List.length_append, List.length_singleton] at h1 ⊢
    omega

theorem fifoPush_length (fifo : List Nat) (pid : Nat)
    (h : fifo.length ≤ RECV_MSG_FIFO_MAX_LEN) :
    (fifoPush fifo pid).length ≤ RECV_MSG_FIFO_MAX_LEN := by
  rw [fifoPush]
  split_ifs with h1
  · simp only [List.length_tail, List.length_append, List.length_singleton]
    omega
  · simp only [List.length_append, List.length_singleton] at h1 ⊢
    omega

theorem sentPush_eviction (msgs : List SentMessage) (m : SentMessage)
    (h : msgs.length = SENT_MSG_LIST_MAX_LEN) :
    sentPush msgs m = msgs.tail ++ [m] := by
  cases msgs with
  | nil => simp [SENT_MSG_LIST_MAX_LEN] at h
  | cons x xs =>
    rw [sentPush, if_pos]
    · simp
    · simp only [List.length_cons, SENT_MSG_LIST_MAX_LEN] at h
      simp only [List.length_append, List.length_cons, List.length_singleton,
        SENT_MSG_LIST_MAX_LEN]
      omega

theorem fifoPush_eviction (fifo : List Nat) (pid : Nat)
    (h : fifo.length = RECV_MSG_FIFO_MAX_LEN) :
    fifoPush fifo pid = fifo.tail ++ [pid] := by
  cases fifo with
  | nil => simp [RECV_MSG_FIFO_MAX_LEN] at h
  | cons x xs =>
    rw [fifoPush, if_pos]
    · simp
    · simp only [List.length_cons, RECV_MSG_FIFO_MAX_LEN] at h
      simp only [List.length_append, List.length_cons, List.length_singleton,
        RECV_MSG_FIFO_MAX_LEN]
      omega

theorem sendMSG_bounded (ks : KeyStream) (now : Int) (iv8 : List Nat) (c : Client)
    (pt : Nat) (payload : Option (List Nat)) (h : ClientBounded c) :
    ClientBounded (sendMSG ks now iv8 c pt payload).1 := by
  rcases hpk : packSSGSCP ks
    { packetType := pt, gatewayUID := c.gatewayUID,
      packetID := c.sendPacketID, payload := payload } c.key iv8 with _ | p
  · simp only [sendMSG, hpk]
    exact h
  · simp only [sendMSG, hpk]
    exact ⟨sentPush_length _ _ h.1, h.2⟩

theorem tickClient_bounded (now : Int) (c : Client) (h : ClientBounded c) :
    ClientBounded (tickClient now c).1 := by
  have h2 := (tickMessages_spec now c.retransmissionTimeout c.sourcePort
    c.remoteAddress c.sentMessages 0).2.1
  have hlen := List.Forall₂.length_eq h2
  exact ⟨by simp only [tickClient]; rw [← hlen]; exact h.1, h.2⟩

theorem mem_updateFirst {p : Client → Bool} {f : Client → Client} {l : List Client}
    {x : Client} (hx : x ∈ updateFirst p f l) : x ∈ l ∨ ∃ a ∈ l, x = f a := by
  induction l with
  | nil => simp [updateFirst] at hx
  | cons a rest ih =>
    rw [updateFirst] at hx
    split_ifs at hx with hp
    · rcases List.mem_cons.mp hx with h1 | h1
      · exact Or.inr ⟨a, List.mem_cons_self a rest, h1⟩
      · exact Or.inl (List.mem_cons_of_mem a h1)
    · rcases List.mem_cons.mp hx with h1 | h1
      · exact Or.inl (h1 ▸ List.mem_cons_self a rest)
      · rcases ih h1 with h2 | ⟨a', ha', hxa⟩
        · exact Or.inl (List.mem_cons_of_mem a h2)
        · exact Or.inr ⟨a', List.mem_cons_of_mem a ha', hxa⟩

theorem process_bounded (ks : KeyStream) (now : Int) (iv8 : List Nat) (st : Server)
    (datagram : List Nat) (rinfo : RInfo)
    (h : ∀ c ∈ st.connectedClients, ClientBounded c) :
    ∀ c ∈ (process ks now iv8 st datagram rinfo).1.connectedClients, ClientBounded c := by
  cases hU : parsePacketGatewayUID datagram with
  | none => simpa [process, hU] using h
  | some uid =>
    by_cases hA : isAuthorizedGateway st uid
    · cases hK : getGatewayKey st uid with
      | none => simpa [process, hU, hA, hK] using h
      | some key =>
        cases hP : parseSSGSCP ks datagram key with
        | none => simpa [process, hU, hA, hK, hP] using h
        | some r =>
          cases r with
          | authFail => simpa [process, hU, hA, hK, hP] using h
          | ok f =>
            cases hF : st.connectedClients.find?
                (fun cc => gatewayUIDsMatch cc.gatewayUID f.gatewayUID) with
            | none =>
              by_cases hT : f.packetType = 1
              · intro c hc
                simp [process, hU, hA, hK, hP, hF, hT] at hc
                rcases hc with h1 | h1
                · exact h c h1
                · subst h1
                  exact ⟨by simp [SENT_MSG_LIST_MAX_LEN],
                    by simp [RECV_MSG_FIFO_MAX_LEN]⟩
              · simpa [process, hU, hA, hK, hP, hF, hT] using h
            | some client =>
              have hcb := h client (List.mem_of_find?_eq_some hF)
              intro c hc
              by_cases hT1 : f.packetType = 1
              · simp [process, hU, hA, hK, hP, hF, hT1] at hc
                rcases mem_updateFirst hc with h1 | ⟨a, ha, rfl⟩
                · exact h c h1
                · exact ⟨by simp [SENT_MSG_LIST_MAX_LEN],
                    by simp [RECV_MSG_FIFO_MAX_LEN]⟩
              · by_cases hT10 : f.packetType = 10
                · simp [process, hU, hA, hK, hP, hF, hT1, hT10] at hc
                  rcases mem_updateFirst hc with h1 | ⟨a, ha, rfl⟩
                  · exact h c h1
                  · exact ⟨le_trans (List.length_eraseP_le _) hcb.1, hcb.2⟩
                · by_cases hT21 : f.packetType = 21
                  · by_cases hDup : f.packetID ∈ client.receivedMessageIDsFIFO
                    · simp [process, hU, hA, hK, hP, hF, hT1, hT10, hT21, hDup] at hc
                      rcases mem_updateFirst hc with h1 | ⟨a, ha, rfl⟩
                      · exact h c h1
                      · exact hcb
                    · simp [process, hU, hA, hK, hP, hF, hT1, hT10, hT21, hDup] at hc
                      rcases mem_updateFirst hc with h1 | ⟨a, ha, rfl⟩
                      · exact h c h1
                      · exact ⟨hcb.1, fifoPush_length _ _ hcb.2⟩
                  · simp [process, hU, hA, hK, hP, hF, hT1, hT10, hT21] at hc
                    rcases mem_updateFirst hc with h1 | ⟨a, ha, rfl⟩
                    · exact h c h1
                    · exact hcb
    · simpa [process, hU, hA] using h

theorem step_bounded (ks : KeyStream) (st : Server) (op : Op)
    (h : ∀ c ∈ st.connectedClients, ClientBounded c) :
    ∀ c ∈ (step ks st op).1.connectedClients, ClientBounded c := by
  cases op with
  | send uid payload now iv8 =>
    cases hF : st.connectedClients.find?
        (fun cc => gatewayUIDsMatch cc.gatewayUID uid) with
    | none => simpa [step, hF] using h
    | some c0 =>
      have hcb := h c0 (List.mem_of_find?_eq_some hF)
      intro c hc
      simp only [step, hF] at hc
      rcases mem_updateFirst hc with h1 | ⟨a, ha, rfl⟩
      · exact h c h1
      · exact sendMSG_bounded ks now iv8 c0 20 (some payload) hcb
  | recv datagram rinfo now iv8 => exact process_bounded ks now iv8 st datagram rinfo h
  | tick now =>
    intro c hc
    simp only [step, tickClients, List.map_map] at hc
    obtain ⟨a, ha, rfl⟩ := List.mem_map.mp hc
    exact tickClient_bounded now a (h a ha)

theorem run_bounded (ks : KeyStream) (st : Server) (ops : List Op)
    (h : ∀ c ∈ st.connectedClients, ClientBounded c) :
    ∀ c ∈ (run ks st ops).connectedClients, ClientBounded c := by
  induction ops generalizing st with
  | nil => exact h
  | cons op rest ih => exact ih _ (step_bounded ks st op h)

/-- C6: starting from any state whose clients respect the queue bounds,
after any sequence of operations (application sends, inbound dispatches,
ticks) every client still has `|sentMessages| ≤ 100` and
`|receivedMessageIDsFIFO| ≤ 100`; and whenever a push would exceed a bound,
the oldest (head) entry is evicted: at a full queue, push yields
`tail ++ [new entry]`. -/
theorem claim_C6_theorem (ks : KeyStream) (st : Server) (ops : List Op)
    (h : ∀ c ∈ st.connectedClients, ClientBounded c) :
    (∀ c ∈ (run ks st ops).connectedClients, ClientBounded c) ∧
    (∀ (msgs : List SentMessage) (m : SentMessage),
      msgs.length = SENT_MSG_LIST_MAX_LEN → sentPush msgs m = msgs.tail ++ [m]) ∧
    (∀ (fifo : List Nat) (pid : Nat),
      fifo.length = RECV_MSG_FIFO_MAX_LEN → fifoPush fifo pid = fifo.tail ++ [pid]) :=
  ⟨run_bounded ks st ops h, sentPush_eviction, fifoPush_eviction⟩

/-- A full sent-messages queue, for the C6 witness. -/
def msgs100 : List SentMessage :=
  List.replicate 100 { packetID := 0, timestamp := 0, packet := [] }

/-- A full received-IDs FIFO, for the C6 witness. -/
def fifo100 : List Nat := List.range 100

/-- C6, witness: the bound after a concrete operation sequence on `server0`,
and head eviction at concretely full queues. -/
theorem claim_C6_witness :
    (∀ c ∈ (run ks0 server0 [Op.send uid0 [1] 0 iv0, Op.tick 2500]).connectedClients,
      ClientBounded c) ∧
    sentPush msgs100 { packetID := 1, timestamp := 5, packet := [1] } =
      msgs100.tail ++ [{ packetID := 1, timestamp := 5, packet := [1] }] ∧
    fifoPush fifo100 7 = fifo100.tail ++ [7] := by
  have hth := claim_C6_theorem ks0 server0 [Op.send uid0 [1] 0 iv0, Op.tick 2500]
    (by
      intro c hc
      simp only [server0, List.mem_singleton] at hc
      subst hc
      exact ⟨by decide, by decide⟩)
  exact ⟨hth.1, hth.2.1 msgs100 _ (by decide), hth.2.2 fifo100 7 (by decide)⟩
